import Mathlib

/-!
Shallow embedding of `src/src-tauri/resources/joycaption_inference.py`.

The script is command-line glue over an external ML inference library: it
parses arguments, picks a prompt from a static mode map, and runs a fixed
sequence of library calls (import dependencies, open image, load processor,
load model, build a chat-style prompt, generate, decode), printing the
caption to stdout and every error or warning to stderr.

External library calls are modelled as fields of an `Env` record: each
fallible call is an `Except String` value (the error string standing for the
raised exception's message).  Uncaught exceptions (the region after model
loading has no try/except) are modelled the way the Python interpreter
behaves: a traceback message on stderr and exit status 1.  `argparse` errors
are modelled as a usage message on stderr and exit status 2, as argparse does.
-/

namespace JoyCaption

/-- A PIL image: the color `mode` string (e.g. "L", "RGBA", "RGB") and an
abstract payload standing for the pixel data. -/
structure PILImage where
  mode : String
  payload : Nat
deriving DecidableEq, Repr

/-- `Image.convert("RGB")`: the result has mode "RGB" and the same payload. -/
def convertRGB (i : PILImage) : PILImage := ⟨"RGB", i.payload⟩

/-- Abstract handle for the `AutoProcessor` object. -/
structure Processor where
  pid : Nat
deriving DecidableEq, Repr

/-- Abstract handle for the `LlavaForConditionalGeneration` model object. -/
structure LlavaModel where
  mid : Nat
deriving DecidableEq, Repr

/-- One chat message, as in the `convo` list of dicts. -/
structure Message where
  role : String
  content : String
deriving DecidableEq, Repr

/-- The `BitsAndBytesConfig` options object, with the three fields the script
sets.  Dtypes are named by strings ("float16") since no numerics occur here. -/
structure BnbConfig where
  load_in_4bit : Bool
  bnb_4bit_compute_dtype : String
  bnb_4bit_quant_type : String
deriving DecidableEq, Repr

/-- How `from_pretrained` was invoked: with a quantization config, or with a
plain torch dtype. -/
inductive LoadCfg where
  | quant (cfg : BnbConfig)
  | dtype (d : String)
deriving DecidableEq, Repr

/-- The processor output: we track `input_ids` (as one token list, the batch
having size 1) since the script slices generation output by its length.
The `pixel_values` tensor and its cast to float16 are not observable in any
claim and are abstracted away. -/
structure Inputs where
  input_ids : List Nat
deriving DecidableEq, Repr

/-- The keyword arguments of `model.generate`.  The float literals 0.6 and
0.9 are represented exactly as rationals. -/
structure GenParams where
  max_new_tokens : Nat
  do_sample : Bool
  temperature : Rat
  top_p : Rat

/-- Observable library-call events, in the order `main` performs them.
`generate` records the (converted) image handed to the processor call, the
length of `input_ids` and the raw generated ids; `decode` records the sliced
ids handed to `tokenizer.decode` and the decoded string. -/
inductive Event where
  | importDeps
  | loadImage (img : PILImage)
  | loadProcessor
  | loadModel (cfg : LoadCfg)
  | buildPrompt (convo : List Message)
  | generate (img : PILImage) (inputLen : Nat) (ids : List Nat)
  | decode (ids : List Nat) (raw : String)
deriving DecidableEq, Repr

/-- The environment: outcomes of every external call the script makes.
An `Except.error e` stands for that call raising an exception with message
`e`; `importError` / `convertError` are `some e` when the corresponding
operation raises. -/
structure Env where
  importError : Option String
  cuda_is_available : Bool
  openImage : String → Except String PILImage
  convertError : Option String
  processorResult : Except String Processor
  fromPretrainedQ : BnbConfig → Except String LlavaModel
  fromPretrainedD : String → Except String LlavaModel
  applyChatTemplate : List Message → Except String String
  processInputs : String → PILImage → Except String Inputs
  modelGenerate : LlavaModel → Inputs → GenParams → Except String (List Nat)
  tokenizerDecode : List Nat → Except String String

/-- The observable result of one run: the process exit status, everything
written to stdout and to stderr (in order), and the trace of completed
library calls. -/
structure Outcome where
  exitCode : Nat
  stdout : List String
  stderr : List String
  trace : List Event
deriving DecidableEq, Repr

/-- `MODE_PROMPTS`: the static mode-to-prompt dictionary, as an ordered
association list (Python dicts preserve insertion order). -/
def MODE_PROMPTS : List (String × String) :=
  [("descriptive", "Write a long detailed description for this image."),
   ("straightforward",
     "Write a straightforward caption for this image. Begin with the main subject and medium. " ++
     "Mention pivotal elements—people, objects, scenery—using confident, definite language. " ++
     "Focus on concrete details like color, shape, texture, and spatial relationships. " ++
     "Show how elements interact. Omit mood and speculative wording. " ++
     "If text is present, quote it exactly. Note any watermarks, signatures, or compression artifacts. " ++
     "Never mention what\x27s absent, resolution, or unobservable details. " ++
     "Vary your sentence structure and keep the description concise, without starting with \"This image is…\" or similar phrasing."),
   ("booru",
     "Generate only comma-separated Danbooru tags (lowercase_underscores). " ++
     "Strict order: artist:, copyright:, character:, meta:, then general tags. " ++
     "Include counts (1girl), appearance, clothing, accessories, pose, expression, actions, background. " ++
     "Use precise Danbooru syntax. No extra text."),
   ("training",
     "Create a training caption for this image. Start with the main subject, then describe pose, " ++
     "expression, clothing, background, and art style. Use comma-separated tags. Be specific about visual details.")]

/-- Python `d[k]` / `d.get(k)` lookup on an association list. -/
def dictFind (d : List (String × String)) (k : String) : Option String :=
  match d.find? (fun p => p.1 == k) with
  | some p => some p.2
  | none => none

/-- Python `d.get(k, dflt)`. -/
def dictGet (d : List (String × String)) (k dflt : String) : String :=
  match dictFind d k with
  | some v => v
  | none => dflt

/-- `DEFAULT_PROMPT = MODE_PROMPTS["descriptive"]`.  The Python indexing
cannot raise because the key is present; `Option.get` with the
key-presence proof models that. -/
def DEFAULT_PROMPT : String :=
  (dictFind MODE_PROMPTS "descriptive").get (by decide)

/-- `list(MODE_PROMPTS.keys())`, the `choices` given to argparse. -/
def mode_choices : List String := MODE_PROMPTS.map Prod.fst

/-- The option values supplied on the command line: `image` and `mode` are
the values given for `--image` / `--mode` (or `none` when the flag is
absent), `low_vram` whether `--low-vram` was passed. -/
structure ArgvOpts where
  image : Option String
  mode : Option String
  low_vram : Bool

/-- The parsed `args` namespace. -/
structure Args where
  image : String
  mode : String
  low_vram : Bool
deriving DecidableEq, Repr

/-- `parser.parse_args()`: `--image` is required; `--mode` defaults to
"descriptive" and must be one of `mode_choices`; on any violation argparse
prints a usage message and calls `sys.exit(2)`, modelled as `.error 2`. -/
def parse_args (o : ArgvOpts) : Except Nat Args :=
  match o.image with
  | none => .error 2
  | some img =>
    match o.mode with
    | none => .ok ⟨img, "descriptive", o.low_vram⟩
    | some m =>
      if mode_choices.contains m then .ok ⟨img, m, o.low_vram⟩ else .error 2

/-- The hard-coded checkpoint id. -/
def model_id : String := "John6666/llama-joycaption-beta-one-hf-llava-nf4"

/-- `needle` occurs as a contiguous run at the head of `hay`. -/
def headMatches : List Char → List Char → Bool
  | [], _ => true
  | _ :: _, [] => false
  | a :: as, b :: bs => a == b && headMatches as bs

/-- Python's substring test `needle in hay`, on the character lists. -/
def pyInStr (needle : List Char) : List Char → Bool
  | [] => headMatches needle []
  | b :: bs => headMatches needle (b :: bs) || pyInStr needle bs

/-- The warning the script prints when no GPU is found (`device == "cpu"`). -/
def cpu_warning (cuda_is_available : Bool) : List String :=
  if cuda_is_available then [] else ["Warning: No GPU. Running on CPU (slow)."]

/-- The `bnb_config` computation: built exactly when the device is "cuda"
and (`--low-vram` was passed or "nf4" occurs in `model_id`). -/
def bnb_config_for (cuda_is_available low_vram : Bool) : Option BnbConfig :=
  if cuda_is_available && (low_vram || pyInStr "nf4".data model_id.data) then
    some ⟨true, "float16", "nf4"⟩
  else none

/-- The `from_pretrained` call `main` makes: with `quantization_config` when
`bnb_config` is not None, otherwise with `torch_dtype=torch.bfloat16`. -/
def load_model (env : Env) (cfg : Option BnbConfig) : Except String LlavaModel :=
  match cfg with
  | some c => env.fromPretrainedQ c
  | none => env.fromPretrainedD "bfloat16"

/-- Which invocation shape `load_model` used, for the trace. -/
def load_cfg_of (cfg : Option BnbConfig) : LoadCfg :=
  match cfg with
  | some c => .quant c
  | none => .dtype "bfloat16"

/-- The `convo` list built for the chat template: the fixed system message
followed by the selected mode's prompt, `prompt = MODE_PROMPTS.get(mode,
DEFAULT_PROMPT)`. -/
def convo_for (mode : String) : List Message :=
  [⟨"system", "You are a helpful image captioner."⟩,
   ⟨"user", dictGet MODE_PROMPTS mode DEFAULT_PROMPT⟩]

/-- The literal keyword arguments of the `model.generate` call. -/
def gen_params : GenParams := ⟨512, true, 6/10, 9/10⟩

/-- Python `str.strip()` with no argument: remove leading and trailing
whitespace. -/
def pyStrip (s : String) : String :=
  ⟨((s.data.dropWhile Char.isWhitespace).reverse.dropWhile Char.isWhitespace).reverse⟩

/-- The argparse usage/error text (stderr); its exact wording comes from the
argparse library and is summarised by one line here. -/
def usage_error : String := "usage: joycaption_inference.py: error: invalid arguments"

/-- The interpreter's report of an uncaught exception, printed to stderr. -/
def tracebackMsg (e : String) : String := "Traceback (most recent call last): " ++ e

/-!
`main` is presented as one stage per try/except block (or, after model
loading, per call whose exception would be uncaught).  Each stage takes the
stderr warnings `warn` printed so far and the trace `tr` of library calls
completed so far, performs one call and either stops with the failure
outcome or continues with the next stage.  The composition `run` below is
the whole script.
-/

/-- Lines 115-119: `tokenizer.decode(...)`, `caption.strip()`, `print`.
`sliced` is the generated id list with the prompt echo already dropped. -/
def doDecode (env : Env) (warn : List String) (tr : List Event)
    (sliced : List Nat) : Outcome :=
  match env.tokenizerDecode sliced with
  | .error e => ⟨1, [], warn ++ [tracebackMsg e], tr⟩
  | .ok caption => ⟨0, [pyStrip caption], warn, tr ++ [.decode sliced caption]⟩

/-- Lines 105-114: `model.generate(**inputs, ...)` then the slice
`generate_ids[inputs["input_ids"].shape[1]:]`. -/
def doGenerate (env : Env) (warn : List String) (tr : List Event)
    (model : LlavaModel) (image : PILImage) (inputs : Inputs) : Outcome :=
  match env.modelGenerate model inputs gen_params with
  | .error e => ⟨1, [], warn ++ [tracebackMsg e], tr⟩
  | .ok generate_ids =>
    doDecode env warn (tr ++ [.generate image inputs.input_ids.length generate_ids])
      (generate_ids.drop inputs.input_ids.length)

/-- Lines 100-103: `processor(text=[convo_string], images=[image], ...)`. -/
def doProcessInputs (env : Env) (warn : List String) (tr : List Event)
    (model : LlavaModel) (image : PILImage) (convo_string : String) : Outcome :=
  match env.processInputs convo_string image with
  | .error e => ⟨1, [], warn ++ [tracebackMsg e], tr⟩
  | .ok inputs => doGenerate env warn tr model image inputs

/-- Lines 93-98: build `convo` and apply the chat template. -/
def doTemplate (env : Env) (warn : List String) (tr : List Event)
    (model : LlavaModel) (image : PILImage) (convo : List Message) : Outcome :=
  match env.applyChatTemplate convo with
  | .error e => ⟨1, [], warn ++ [tracebackMsg e], tr⟩
  | .ok convo_string =>
    doProcessInputs env warn (tr ++ [.buildPrompt convo]) model image convo_string

/-- Lines 79-91: `from_pretrained` with either the quantization config or
`torch_dtype=torch.bfloat16`. -/
def doLoadModel (env : Env) (warn : List String) (tr : List Event)
    (cfg : Option BnbConfig) (image : PILImage) (convo : List Message) : Outcome :=
  match load_model env cfg with
  | .error e => ⟨1, [], warn ++ ["Error loading model: " ++ e], tr⟩
  | .ok model => doTemplate env warn (tr ++ [.loadModel (load_cfg_of cfg)]) model image convo

/-- Lines 64-77: `AutoProcessor.from_pretrained`, then the `bnb_config`
computation. -/
def doLoadProcessor (env : Env) (warn : List String) (tr : List Event)
    (args : Args) (image : PILImage) : Outcome :=
  match env.processorResult with
  | .error e => ⟨1, [], warn ++ ["Error loading processor: " ++ e], tr⟩
  | .ok _ =>
    doLoadModel env warn (tr ++ [.loadProcessor])
      (bnb_config_for env.cuda_is_available args.low_vram) image (convo_for args.mode)

/-- Lines 58-62: `Image.open(args.image).convert("RGB")`; both the open and
the conversion live in the same try block with the same error message. -/
def doOpenImage (env : Env) (warn : List String) (tr : List Event)
    (args : Args) : Outcome :=
  match env.openImage args.image with
  | .error e => ⟨1, [], warn ++ ["Error opening image: " ++ e], tr⟩
  | .ok raw =>
    match env.convertError with
    | some e => ⟨1, [], warn ++ ["Error opening image: " ++ e], tr⟩
    | none => doLoadProcessor env warn (tr ++ [.loadImage (convertRGB raw)]) args (convertRGB raw)

/-- Lines 45-56: the dependency imports, then the device probe and the CPU
warning. -/
def doImports (env : Env) (args : Args) : Outcome :=
  match env.importError with
  | some e => ⟨1, [], ["Error: Missing dependency: " ++ e], []⟩
  | none => doOpenImage env (cpu_warning env.cuda_is_available) [.importDeps] args

/-- The whole of `main`, as a function from the environment and command line
to the observable outcome. -/
def run (env : Env) (o : ArgvOpts) : Outcome :=
  match parse_args o with
  | .error c => ⟨c, [], [usage_error], []⟩
  | .ok args => doImports env args

/-- A fully succeeding environment on a CUDA device, used for witnesses. -/
def envOk : Env :=
  ⟨none, true, fun _ => .ok ⟨"L", 7⟩, none, .ok ⟨0⟩,
   fun _ => .ok ⟨0⟩, fun _ => .ok ⟨0⟩,
   fun _ => .ok "templated", fun _ _ => .ok ⟨[1, 2, 3]⟩,
   fun _ _ _ => .ok [1, 2, 3, 40, 41], fun _ => .ok "  a caption  "⟩

/-- A succeeding environment on CPU, used for witnesses. -/
def envCpu : Env :=
  ⟨none, false, fun _ => .ok ⟨"L", 7⟩, none, .ok ⟨0⟩,
   fun _ => .ok ⟨0⟩, fun _ => .ok ⟨0⟩,
   fun _ => .ok "templated", fun _ _ => .ok ⟨[1, 2, 3]⟩,
   fun _ _ _ => .ok [1, 2, 3, 40, 41], fun _ => .ok "  a caption  "⟩

/-- An environment whose dependency import fails, used for witnesses. -/
def envNoDeps : Env :=
  ⟨some "No module named torch", true, fun _ => .ok ⟨"L", 7⟩, none, .ok ⟨0⟩,
   fun _ => .ok ⟨0⟩, fun _ => .ok ⟨0⟩,
   fun _ => .ok "templated", fun _ _ => .ok ⟨[1, 2, 3]⟩,
   fun _ _ _ => .ok [1, 2, 3, 40, 41], fun _ => .ok "  a caption  "⟩

/-- An environment where opening the image raises, used for witnesses. -/
def envBadImage : Env :=
  ⟨none, true, fun _ => .error "No such file", none, .ok ⟨0⟩,
   fun _ => .ok ⟨0⟩, fun _ => .ok ⟨0⟩,
   fun _ => .ok "templated", fun _ _ => .ok ⟨[1, 2, 3]⟩,
   fun _ _ _ => .ok [1, 2, 3, 40, 41], fun _ => .ok "  a caption  "⟩

/-- A well-formed command line selecting the booru mode. -/
def argvBooru : ArgvOpts := ⟨some "img.png", some "booru", false⟩

end JoyCaption

namespace JoyCaption

/-! Rewrite lemmas, one per arm of each stage. -/

theorem run_err (env : Env) (o : ArgvOpts) (c : Nat) (h : parse_args o = .error c) :
    run env o = ⟨c, [], [usage_error], []⟩ := by
  unfold run; rw [h]

theorem run_ok (env : Env) (o : ArgvOpts) (args : Args) (h : parse_args o = .ok args) :
    run env o = doImports env args := by
  unfold run; rw [h]

theorem doImports_err (env : Env) (args : Args) (e : String)
    (h : env.importError = some e) :
    doImports env args = ⟨1, [], ["Error: Missing dependency: " ++ e], []⟩ := by
  unfold doImports; rw [h]

theorem doImports_ok (env : Env) (args : Args) (h : env.importError = none) :
    doImports env args =
      doOpenImage env (cpu_warning env.cuda_is_available) [.importDeps] args := by
  unfold doImports; rw [h]

theorem doOpenImage_err (env : Env) (warn : List String) (tr : List Event)
    (args : Args) (e : String) (h : env.openImage args.image = .error e) :
    doOpenImage env warn tr args = ⟨1, [], warn ++ ["Error opening image: " ++ e], tr⟩ := by
  unfold doOpenImage; rw [h]

theorem doOpenImage_convert_err (env : Env) (warn : List String) (tr : List Event)
    (args : Args) (raw : PILImage) (e : String)
    (h : env.openImage args.image = .ok raw) (hc : env.convertError = some e) :
    doOpenImage env warn tr args = ⟨1, [], warn ++ ["Error opening image: " ++ e], tr⟩ := by
  unfold doOpenImage; rw [h, hc]

theorem doOpenImage_ok (env : Env) (warn : List String) (tr : List Event)
    (args : Args) (raw : PILImage)
    (h : env.openImage args.image = .ok raw) (hc : env.convertError = none) :
    doOpenImage env warn tr args =
      doLoadProcessor env warn (tr ++ [.loadImage (convertRGB raw)]) args (convertRGB raw) := by
  unfold doOpenImage; rw [h, hc]

theorem doLoadProcessor_err (env : Env) (warn : List String) (tr : List Event)
    (args : Args) (image : PILImage) (e : String) (h : env.processorResult = .error e) :
    doLoadProcessor env warn tr args image =
      ⟨1, [], warn ++ ["Error loading processor: " ++ e], tr⟩ := by
  unfold doLoadProcessor; rw [h]

theorem doLoadProcessor_ok (env : Env) (warn : List String) (tr : List Event)
    (args : Args) (image : PILImage) (p : Processor) (h : env.processorResult = .ok p) :
    doLoadProcessor env warn tr args image =
      doLoadModel env warn (tr ++ [.loadProcessor])
        (bnb_config_for env.cuda_is_available args.low_vram) image (convo_for args.mode) := by
  unfold doLoadProcessor; rw [h]

theorem doLoadModel_err (env : Env) (warn : List String) (tr : List Event)
    (cfg : Option BnbConfig) (image : PILImage) (convo : List Message) (e : String)
    (h : load_model env cfg = .error e) :
    doLoadModel env warn tr cfg image convo =
      ⟨1, [], warn ++ ["Error loading model: " ++ e], tr⟩ := by
  unfold doLoadModel; rw [h]

theorem doLoadModel_ok (env : Env) (warn : List String) (tr : List Event)
    (cfg : Option BnbConfig) (image : PILImage) (convo : List Message) (m : LlavaModel)
    (h : load_model env cfg = .ok m) :
    doLoadModel env warn tr cfg image convo =
      doTemplate env warn (tr ++ [.loadModel (load_cfg_of cfg)]) m image convo := by
  unfold doLoadModel; rw [h]

theorem doTemplate_err (env : Env) (warn : List String) (tr : List Event)
    (model : LlavaModel) (image : PILImage) (convo : List Message) (e : String)
    (h : env.applyChatTemplate convo = .error e) :
    doTemplate env warn tr model image convo = ⟨1, [], warn ++ [tracebackMsg e], tr⟩ := by
  unfold doTemplate; rw [h]

theorem doTemplate_ok (env : Env) (warn : List String) (tr : List Event)
    (model : LlavaModel) (image : PILImage) (convo : List Message) (cs : String)
    (h : env.applyChatTemplate convo = .ok cs) :
    doTemplate env warn tr model image convo =
      doProcessInputs env warn (tr ++ [.buildPrompt convo]) model image cs := by
  unfold doTemplate; rw [h]

theorem doProcessInputs_err (env : Env) (warn : List String) (tr : List Event)
    (model : LlavaModel) (image : PILImage) (cs : String) (e : String)
    (h : env.processInputs cs image = .error e) :
    doProcessInputs env warn tr model image cs = ⟨1, [], warn ++ [tracebackMsg e], tr⟩ := by
  unfold doProcessInputs; rw [h]

theorem doProcessInputs_ok (env : Env) (warn : List String) (tr : List Event)
    (model : LlavaModel) (image : PILImage) (cs : String) (inputs : Inputs)
    (h : env.processInputs cs image = .ok inputs) :
    doProcessInputs env warn tr model image cs =
      doGenerate env warn tr model image inputs := by
  unfold doProcessInputs; rw [h]

theorem doGenerate_err (env : Env) (warn : List String) (tr : List Event)
    (model : LlavaModel) (image : PILImage) (inputs : Inputs) (e : String)
    (h : env.modelGenerate model inputs gen_params = .error e) :
    doGenerate env warn tr model image inputs = ⟨1, [], warn ++ [tracebackMsg e], tr⟩ := by
  unfold doGenerate; rw [h]

theorem doGenerate_ok (env : Env) (warn : List String) (tr : List Event)
    (model : LlavaModel) (image : PILImage) (inputs : Inputs) (ids : List Nat)
    (h : env.modelGenerate model inputs gen_params = .ok ids) :
    doGenerate env warn tr model image inputs =
      doDecode env warn (tr ++ [.generate image inputs.input_ids.length ids])
        (ids.drop inputs.input_ids.length) := by
  unfold doGenerate; rw [h]

theorem doDecode_err (env : Env) (warn : List String) (tr : List Event)
    (sliced : List Nat) (e : String) (h : env.tokenizerDecode sliced = .error e) :
    doDecode env warn tr sliced = ⟨1, [], warn ++ [tracebackMsg e], tr⟩ := by
  unfold doDecode; rw [h]

theorem doDecode_ok (env : Env) (warn : List String) (tr : List Event)
    (sliced : List Nat) (caption : String) (h : env.tokenizerDecode sliced = .ok caption) :
    doDecode env warn tr sliced = ⟨0, [pyStrip caption], warn, tr ++ [.decode sliced caption]⟩ := by
  unfold doDecode; rw [h]

/-- `parse_args` fails only with argparse's exit status 2. -/
theorem parse_args_error_two (o : ArgvOpts) (c : Nat) (h : parse_args o = .error c) :
    c = 2 := by
  rcases o with ⟨image, mode, lv⟩
  cases image with
  | none =>
    simp only [parse_args] at h
    injection h with h; exact h.symm
  | some img =>
    cases mode with
    | none => simp only [parse_args] at h; cases h
    | some m =>
      simp only [parse_args] at h
      split at h
      · cases h
      · injection h with h; exact h.symm

/-- Exhaustive case analysis of `run`: one disjunct per leaf of `main`, each
carrying the environment facts that lead to it and the exact outcome. -/
theorem run_cases (env : Env) (o : ArgvOpts) :
    (∃ c, parse_args o = .error c ∧ run env o = ⟨c, [], [usage_error], []⟩) ∨
    (∃ args, parse_args o = .ok args ∧
     ((∃ e, env.importError = some e ∧
         run env o = ⟨1, [], ["Error: Missing dependency: " ++ e], []⟩) ∨
      (env.importError = none ∧
       ((∃ e, env.openImage args.image = .error e ∧
           run env o = ⟨1, [], cpu_warning env.cuda_is_available ++
             ["Error opening image: " ++ e], [.importDeps]⟩) ∨
        (∃ raw, env.openImage args.image = .ok raw ∧
         ((∃ e, env.convertError = some e ∧
             run env o = ⟨1, [], cpu_warning env.cuda_is_available ++
               ["Error opening image: " ++ e], [.importDeps]⟩) ∨
          (env.convertError = none ∧
           ((∃ e, env.processorResult = .error e ∧
               run env o = ⟨1, [], cpu_warning env.cuda_is_available ++
                 ["Error loading processor: " ++ e],
                 [.importDeps, .loadImage (convertRGB raw)]⟩) ∨
            (∃ p, env.processorResult = .ok p ∧
             ((∃ e, load_model env (bnb_config_for env.cuda_is_available args.low_vram) =
                  .error e ∧
                 run env o = ⟨1, [], cpu_warning env.cuda_is_available ++
                   ["Error loading model: " ++ e],
                   [.importDeps, .loadImage (convertRGB raw), .loadProcessor]⟩) ∨
              (∃ m, load_model env (bnb_config_for env.cuda_is_available args.low_vram) =
                  .ok m ∧
               ((∃ e, env.applyChatTemplate (convo_for args.mode) = .error e ∧
                   run env o = ⟨1, [], cpu_warning env.cuda_is_available ++
                     [tracebackMsg e],
                     [.importDeps, .loadImage (convertRGB raw), .loadProcessor,
                      .loadModel (load_cfg_of
                        (bnb_config_for env.cuda_is_available args.low_vram))]⟩) ∨
                (∃ cs, env.applyChatTemplate (convo_for args.mode) = .ok cs ∧
                 ((∃ e, env.processInputs cs (convertRGB raw) = .error e ∧
                     run env o = ⟨1, [], cpu_warning env.cuda_is_available ++
                       [tracebackMsg e],
                       [.importDeps, .loadImage (convertRGB raw), .loadProcessor,
                        .loadModel (load_cfg_of
                          (bnb_config_for env.cuda_is_available args.low_vram)),
                        .buildPrompt (convo_for args.mode)]⟩) ∨
                  (∃ inputs, env.processInputs cs (convertRGB raw) = .ok inputs ∧
                   ((∃ e, env.modelGenerate m inputs gen_params = .error e ∧
                       run env o = ⟨1, [], cpu_warning env.cuda_is_available ++
                         [tracebackMsg e],
                         [.importDeps, .loadImage (convertRGB raw), .loadProcessor,
                          .loadModel (load_cfg_of
                            (bnb_config_for env.cuda_is_available args.low_vram)),
                          .buildPrompt (convo_for args.mode)]⟩) ∨
                    (∃ ids, env.modelGenerate m inputs gen_params = .ok ids ∧
                     ((∃ e, env.tokenizerDecode (ids.drop inputs.input_ids.length) =
                          .error e ∧
                         run env o = ⟨1, [], cpu_warning env.cuda_is_available ++
                           [tracebackMsg e],
                           [.importDeps, .loadImage (convertRGB raw), .loadProcessor,
                            .loadModel (load_cfg_of
                              (bnb_config_for env.cuda_is_available args.low_vram)),
                            .buildPrompt (convo_for args.mode),
                            .generate (convertRGB raw) inputs.input_ids.length ids]⟩) ∨
                      (∃ caption,
                         env.tokenizerDecode (ids.drop inputs.input_ids.length) =
                           .ok caption ∧
                         run env o = ⟨0, [pyStrip caption],
                           cpu_warning env.cuda_is_available,
                           [.importDeps, .loadImage (convertRGB raw), .loadProcessor,
                            .loadModel (load_cfg_of
                              (bnb_config_for env.cuda_is_available args.low_vram)),
                            .buildPrompt (convo_for args.mode),
                            .generate (convertRGB raw) inputs.input_ids.length ids,
                            .decode (ids.drop inputs.input_ids.length)
                              caption]⟩))))))))))))))))))) := by
  cases hp : parse_args o with
  | error c => exact Or.inl ⟨c, rfl, run_err env o c hp⟩
  | ok args =>
    refine Or.inr ⟨args, rfl, ?_⟩
    cases hi : env.importError with
    | some e =>
      exact Or.inl ⟨e, rfl, by rw [run_ok env o args hp, doImports_err env args e hi]⟩
    | none =>
      refine Or.inr ⟨rfl, ?_⟩
      have hr1 : run env o =
          doOpenImage env (cpu_warning env.cuda_is_available) [.importDeps] args := by
        rw [run_ok env o args hp, doImports_ok env args hi]
      cases ho : env.openImage args.image with
      | error e => exact Or.inl ⟨e, rfl, by rw [hr1, doOpenImage_err _ _ _ _ _ ho]⟩
      | ok raw =>
        refine Or.inr ⟨raw, rfl, ?_⟩
        cases hc : env.convertError with
        | some e =>
          exact Or.inl ⟨e, rfl, by rw [hr1, doOpenImage_convert_err _ _ _ _ _ _ ho hc]⟩
        | none =>
          refine Or.inr ⟨rfl, ?_⟩
          have hr2 : run env o = doLoadProcessor env (cpu_warning env.cuda_is_available)
              [.importDeps, .loadImage (convertRGB raw)] args (convertRGB raw) := by
            rw [hr1, doOpenImage_ok _ _ _ _ _ ho hc]; rfl
          cases hpr : env.processorResult with
          | error e => exact Or.inl ⟨e, rfl, by rw [hr2, doLoadProcessor_err _ _ _ _ _ _ hpr]⟩
          | ok p =>
            refine Or.inr ⟨p, rfl, ?_⟩
            have hr3 : run env o = doLoadModel env (cpu_warning env.cuda_is_available)
                [.importDeps, .loadImage (convertRGB raw), .loadProcessor]
                (bnb_config_for env.cuda_is_available args.low_vram)
                (convertRGB raw) (convo_for args.mode) := by
              rw [hr2, doLoadProcessor_ok _ _ _ _ _ p hpr]; rfl
            cases hlm : load_model env (bnb_config_for env.cuda_is_available args.low_vram) with
            | error e => exact Or.inl ⟨e, rfl, by rw [hr3, doLoadModel_err _ _ _ _ _ _ _ hlm]⟩
            | ok m =>
              refine Or.inr ⟨m, rfl, ?_⟩
              have hr4 : run env o = doTemplate env (cpu_warning env.cuda_is_available)
                  [.importDeps, .loadImage (convertRGB raw), .loadProcessor,
                   .loadModel (load_cfg_of
                     (bnb_config_for env.cuda_is_available args.low_vram))]
                  m (convertRGB raw) (convo_for args.mode) := by
                rw [hr3, doLoadModel_ok _ _ _ _ _ _ m hlm]; rfl
              cases hct : env.applyChatTemplate (convo_for args.mode) with
              | error e => exact Or.inl ⟨e, rfl, by rw [hr4, doTemplate_err _ _ _ _ _ _ _ hct]⟩
              | ok cs =>
                refine Or.inr ⟨cs, rfl, ?_⟩
                have hr5 : run env o = doProcessInputs env (cpu_warning env.cuda_is_available)
                    [.importDeps, .loadImage (convertRGB raw), .loadProcessor,
                     .loadModel (load_cfg_of
                       (bnb_config_for env.cuda_is_available args.low_vram)),
                     .buildPrompt (convo_for args.mode)]
                    m (convertRGB raw) cs := by
                  rw [hr4, doTemplate_ok _ _ _ _ _ _ cs hct]; rfl
                cases hpi : env.processInputs cs (convertRGB raw) with
                | error e =>
                  exact Or.inl ⟨e, rfl, by rw [hr5, doProcessInputs_err _ _ _ _ _ _ _ hpi]⟩
                | ok inputs =>
                  refine Or.inr ⟨inputs, rfl, ?_⟩
                  have hr6 : run env o = doGenerate env (cpu_warning env.cuda_is_available)
                      [.importDeps, .loadImage (convertRGB raw), .loadProcessor,
                       .loadModel (load_cfg_of
                         (bnb_config_for env.cuda_is_available args.low_vram)),
                       .buildPrompt (convo_for args.mode)]
                      m (convertRGB raw) inputs := by
                    rw [hr5, doProcessInputs_ok _ _ _ _ _ _ inputs hpi]
                  cases hg : env.modelGenerate m inputs gen_params with
                  | error e =>
                    exact Or.inl ⟨e, rfl, by rw [hr6, doGenerate_err _ _ _ _ _ _ _ hg]⟩
                  | ok ids =>
                    refine Or.inr ⟨ids, rfl, ?_⟩
                    have hr7 : run env o = doDecode env (cpu_warning env.cuda_is_available)
                        [.importDeps, .loadImage (convertRGB raw), .loadProcessor,
                         .loadModel (load_cfg_of
                           (bnb_config_for env.cuda_is_available args.low_vram)),
                         .buildPrompt (convo_for args.mode),
                         .generate (convertRGB raw) inputs.input_ids.length ids]
                        (ids.drop inputs.input_ids.length) := by
                      rw [hr6, doGenerate_ok _ _ _ _ _ _ ids hg]; rfl
                    cases hd : env.tokenizerDecode (ids.drop inputs.input_ids.length) with
                    | error e =>
                      exact Or.inl ⟨e, rfl, by rw [hr7, doDecode_err _ _ _ _ _ hd]⟩
                    | ok caption =>
                      exact Or.inr ⟨caption, rfl,
                        by rw [hr7, doDecode_ok _ _ _ _ caption hd]; rfl⟩

/-- A mode accepted by the parser is one of the four fixed names. -/
theorem parse_args_mode_cases (o : ArgvOpts) (args : Args)
    (h : parse_args o = .ok args) :
    args.mode = "descriptive" ∨ args.mode = "straightforward" ∨
    args.mode = "booru" ∨ args.mode = "training" := by
  rcases o with ⟨image, mode, lv⟩
  cases image with
  | none => simp only [parse_args] at h; cases h
  | some img =>
    cases mode with
    | none =>
      simp only [parse_args] at h
      injection h with h
      subst h; left; rfl
    | some m =>
      simp only [parse_args] at h
      split at h
      case isTrue hcont =>
        injection h with h
        subst h
        have hmem : m ∈ mode_choices := by simpa using hcont
        simpa [mode_choices, MODE_PROMPTS] using hmem
      case isFalse => cases h

/-- Every one of the four mode names is found in `MODE_PROMPTS`, and the
`.get` with default returns exactly the found entry. -/
theorem mode_lookup (m : String)
    (h : m = "descriptive" ∨ m = "straightforward" ∨ m = "booru" ∨ m = "training") :
    ∃ p, dictFind MODE_PROMPTS m = some p ∧ dictGet MODE_PROMPTS m DEFAULT_PROMPT = p := by
  rcases h with h | h | h | h <;> subst h <;> exact ⟨_, rfl, rfl⟩

/-- On CUDA the `bnb_config` is always built (the model id contains "nf4"). -/
theorem bnb_config_for_cuda (lv : Bool) :
    bnb_config_for true lv = some ⟨true, "float16", "nf4"⟩ := by
  have hsub : pyInStr "nf4".data model_id.data = true := by decide
  simp [bnb_config_for, hsub]

/-- On CPU no `bnb_config` is built. -/
theorem bnb_config_for_cpu (lv : Bool) : bnb_config_for false lv = none := by
  simp [bnb_config_for]

/-- Inversion: a `buildPrompt` event determines the parsed args and the
conversation built. -/
theorem buildPrompt_mem_inv (env : Env) (o : ArgvOpts) (convo : List Message)
    (h : Event.buildPrompt convo ∈ (run env o).trace) :
    ∃ args, parse_args o = .ok args ∧ convo = convo_for args.mode := by
  rcases run_cases env o with
    ⟨c, hp, hr⟩ |
    ⟨args, hp, ⟨e, he, hr⟩ |
      ⟨hi, ⟨e, he, hr⟩ |
        ⟨raw, ho, ⟨e, he, hr⟩ |
          ⟨hc, ⟨e, he, hr⟩ |
            ⟨p, hpr, ⟨e, he, hr⟩ |
              ⟨mdl, hlm, ⟨e, he, hr⟩ |
                ⟨cs, hct, ⟨e, he, hr⟩ |
                  ⟨inputs, hpi, ⟨e, he, hr⟩ |
                    ⟨ids, hg, ⟨e, he, hr⟩ |
                      ⟨caption, hd, hr⟩⟩⟩⟩⟩⟩⟩⟩⟩⟩
  all_goals rw [hr] at h
  all_goals simp at h
  all_goals exact ⟨args, hp, h⟩

/-- Inversion: exit status 0 occurs only on the full success path, and then
the outcome is completely determined. -/
theorem exit_zero_inv (env : Env) (o : ArgvOpts) (h : (run env o).exitCode = 0) :
    ∃ args raw cs inputs ids caption,
      parse_args o = .ok args ∧
      env.importError = none ∧
      env.openImage args.image = .ok raw ∧
      env.convertError = none ∧
      env.applyChatTemplate (convo_for args.mode) = .ok cs ∧
      env.processInputs cs (convertRGB raw) = .ok inputs ∧
      env.tokenizerDecode (ids.drop inputs.input_ids.length) = .ok caption ∧
      run env o = ⟨0, [pyStrip caption], cpu_warning env.cuda_is_available,
        [.importDeps, .loadImage (convertRGB raw), .loadProcessor,
         .loadModel (load_cfg_of (bnb_config_for env.cuda_is_available args.low_vram)),
         .buildPrompt (convo_for args.mode),
         .generate (convertRGB raw) inputs.input_ids.length ids,
         .decode (ids.drop inputs.input_ids.length) caption]⟩ := by
  rcases run_cases env o with
    ⟨c, hp, hr⟩ |
    ⟨args, hp, ⟨e, he, hr⟩ |
      ⟨hi, ⟨e, he, hr⟩ |
        ⟨raw, ho, ⟨e, he, hr⟩ |
          ⟨hc, ⟨e, he, hr⟩ |
            ⟨p, hpr, ⟨e, he, hr⟩ |
              ⟨mdl, hlm, ⟨e, he, hr⟩ |
                ⟨cs, hct, ⟨e, he, hr⟩ |
                  ⟨inputs, hpi, ⟨e, he, hr⟩ |
                    ⟨ids, hg, ⟨e, he, hr⟩ |
                      ⟨caption, hd, hr⟩⟩⟩⟩⟩⟩⟩⟩⟩⟩
  · rw [hr] at h
    have := parse_args_error_two o c hp
    simp at h; omega
  all_goals rw [hr] at h
  all_goals try simp at h
  exact ⟨args, raw, cs, inputs, ids, caption, hp, hi, ho, hc, hct, hpi, hd, hr⟩

/-- Inversion: a `loadModel` event carries exactly the configuration the
`bnb_config` computation selects for the device. -/
theorem loadModel_mem_inv (env : Env) (o : ArgvOpts) (cfg : LoadCfg)
    (h : Event.loadModel cfg ∈ (run env o).trace) :
    ∃ args, parse_args o = .ok args ∧
      cfg = load_cfg_of (bnb_config_for env.cuda_is_available args.low_vram) := by
  rcases run_cases env o with
    ⟨c, hp, hr⟩ |
    ⟨args, hp, ⟨e, he, hr⟩ |
      ⟨hi, ⟨e, he, hr⟩ |
        ⟨raw, ho, ⟨e, he, hr⟩ |
          ⟨hc, ⟨e, he, hr⟩ |
            ⟨p, hpr, ⟨e, he, hr⟩ |
              ⟨mdl, hlm, ⟨e, he, hr⟩ |
                ⟨cs, hct, ⟨e, he, hr⟩ |
                  ⟨inputs, hpi, ⟨e, he, hr⟩ |
                    ⟨gids, hg, ⟨e, he, hr⟩ |
                      ⟨caption, hd, hr⟩⟩⟩⟩⟩⟩⟩⟩⟩⟩
  all_goals rw [hr] at h
  all_goals simp at h
  all_goals exact ⟨args, hp, h⟩

/-- Inversion: a `loadImage` event holds the RGB conversion of the
successfully opened file. -/
theorem loadImage_mem_inv (env : Env) (o : ArgvOpts) (img : PILImage)
    (h : Event.loadImage img ∈ (run env o).trace) :
    ∃ args raw, parse_args o = .ok args ∧
      env.openImage args.image = .ok raw ∧
      env.convertError = none ∧ img = convertRGB raw := by
  rcases run_cases env o with
    ⟨c, hp, hr⟩ |
    ⟨args, hp, ⟨e, he, hr⟩ |
      ⟨hi, ⟨e, he, hr⟩ |
        ⟨raw, ho, ⟨e, he, hr⟩ |
          ⟨hc, ⟨e, he, hr⟩ |
            ⟨p, hpr, ⟨e, he, hr⟩ |
              ⟨mdl, hlm, ⟨e, he, hr⟩ |
                ⟨cs, hct, ⟨e, he, hr⟩ |
                  ⟨inputs, hpi, ⟨e, he, hr⟩ |
                    ⟨gids, hg, ⟨e, he, hr⟩ |
                      ⟨caption, hd, hr⟩⟩⟩⟩⟩⟩⟩⟩⟩⟩
  all_goals rw [hr] at h
  all_goals simp at h
  all_goals exact ⟨args, raw, hp, ho, hc, h⟩

/-- Inversion: a non-zero exit status means stdout is empty and stderr holds
at least one message. -/
theorem exit_nonzero_inv (env : Env) (o : ArgvOpts) (h : (run env o).exitCode ≠ 0) :
    (run env o).stdout = [] ∧ (run env o).stderr ≠ [] := by
  rcases run_cases env o with
    ⟨c, hp, hr⟩ |
    ⟨args, hp, ⟨e, he, hr⟩ |
      ⟨hi, ⟨e, he, hr⟩ |
        ⟨raw, ho, ⟨e, he, hr⟩ |
          ⟨hc, ⟨e, he, hr⟩ |
            ⟨p, hpr, ⟨e, he, hr⟩ |
              ⟨mdl, hlm, ⟨e, he, hr⟩ |
                ⟨cs, hct, ⟨e, he, hr⟩ |
                  ⟨inputs, hpi, ⟨e, he, hr⟩ |
                    ⟨ids, hg, ⟨e, he, hr⟩ |
                      ⟨caption, hd, hr⟩⟩⟩⟩⟩⟩⟩⟩⟩⟩ <;>
    rw [hr] at h ⊢ <;> simp_all

/-! The ten claims. -/

/-- C1: `MODE_PROMPTS` is a static map whose keys are exactly descriptive,
straightforward, booru and training, and in every run the instruction text
sent to the model (the user message of the built conversation) is the prompt
string this map assigns to the selected mode. -/
theorem mode_map_keys_and_prompt_sent :
    MODE_PROMPTS.map Prod.fst = ["descriptive", "straightforward", "booru", "training"] ∧
    ∀ (env : Env) (o : ArgvOpts) (args : Args) (convo : List Message),
      parse_args o = .ok args →
      Event.buildPrompt convo ∈ (run env o).trace →
      ∃ p, dictFind MODE_PROMPTS args.mode = some p ∧ Message.mk "user" p ∈ convo := by
  refine ⟨by decide, ?_⟩
  intro env o args convo hp h
  rcases buildPrompt_mem_inv env o convo h with ⟨args2, hp2, hcv⟩
  rw [hp] at hp2
  injection hp2 with hp2
  subst hp2
  rcases mode_lookup args.mode (parse_args_mode_cases o args hp) with ⟨p, hfind, hget⟩
  refine ⟨p, hfind, ?_⟩
  rw [hcv]
  unfold convo_for
  rw [hget]
  simp

set_option maxRecDepth 100000 in
theorem mode_map_keys_and_prompt_sent_witness :
    ∃ p, dictFind MODE_PROMPTS "booru" = some p ∧
      Message.mk "user" p ∈ convo_for "booru" :=
  mode_map_keys_and_prompt_sent.2 envOk argvBooru ⟨"img.png", "booru", false⟩
    (convo_for "booru") rfl (by decide)

/-- C2: in every run in which a step fails, the program writes an error
message (stderr is nonempty) and exits with non-zero status: a non-zero exit
always comes with a message, and exit status 0 occurs only when every step
succeeded, through decoding included. -/
theorem failure_prints_error_nonzero_exit :
    ∀ (env : Env) (o : ArgvOpts),
      ((run env o).exitCode ≠ 0 → (run env o).stderr ≠ []) ∧
      ((run env o).exitCode = 0 →
        ∃ ids caption, Event.decode ids caption ∈ (run env o).trace) := by
  intro env o
  constructor
  · intro h
    exact (exit_nonzero_inv env o h).2
  · intro h
    rcases exit_zero_inv env o h with
      ⟨args, raw, cs, inputs, ids, caption, hp, hi, ho, hc, hct, hpi, hd, hr⟩
    exact ⟨ids.drop inputs.input_ids.length, caption, by rw [hr]; simp⟩

theorem failure_prints_error_nonzero_exit_witness :
    (run envNoDeps argvBooru).stderr ≠ [] ∧
    ∃ ids caption, Event.decode ids caption ∈ (run envOk argvBooru).trace :=
  ⟨(failure_prints_error_nonzero_exit envNoDeps argvBooru).1 (by decide),
   (failure_prints_error_nonzero_exit envOk argvBooru).2 (by decide)⟩

/-- C3: argparse accepts as --mode exactly the four fixed names; for every
other value parsing fails with exit status 2, and the run stops there with
an empty trace: no library call (not even the imports) is made. -/
theorem mode_choices_exact_or_reject :
    mode_choices = ["descriptive", "straightforward", "booru", "training"] ∧
    ∀ (img m : String) (lv : Bool),
      ((∃ args, parse_args ⟨some img, some m, lv⟩ = .ok args) ↔ m ∈ mode_choices) ∧
      (m ∉ mode_choices →
        parse_args ⟨some img, some m, lv⟩ = .error 2 ∧
        ∀ env : Env, run env ⟨some img, some m, lv⟩ = ⟨2, [], [usage_error], []⟩) := by
  refine ⟨by decide, ?_⟩
  intro img m lv
  constructor
  · constructor
    · rintro ⟨args, h⟩
      simp only [parse_args] at h
      split at h
      case isTrue hcont => simpa using hcont
      case isFalse => cases h
    · intro hm
      refine ⟨⟨img, m, lv⟩, ?_⟩
      simp [parse_args, hm]
  · intro hm
    have hp : parse_args ⟨some img, some m, lv⟩ = .error 2 := by
      simp [parse_args, hm]
    exact ⟨hp, fun env => run_err env _ 2 hp⟩

theorem mode_choices_exact_or_reject_witness :
    parse_args ⟨some "img.png", some "bogus", false⟩ = .error 2 ∧
    run envOk ⟨some "img.png", some "bogus", false⟩ = ⟨2, [], [usage_error], []⟩ :=
  ⟨((mode_choices_exact_or_reject.2 "img.png" "bogus" false).2 (by decide)).1,
   ((mode_choices_exact_or_reject.2 "img.png" "bogus" false).2 (by decide)).2 envOk⟩

/-- C4: whenever the model is loaded on a CUDA device it is loaded through a
quantization options object with load_in_4bit true, nf4 quantization type
and float16 compute dtype (the "nf4" substring of the model id makes the
condition hold regardless of --low-vram); on CPU no such object is built and
the model is loaded with the bfloat16 dtype instead. -/
theorem quantization_matches_device :
    ∀ (env : Env) (o : ArgvOpts) (cfg : LoadCfg),
      Event.loadModel cfg ∈ (run env o).trace →
      (env.cuda_is_available = true → cfg = .quant ⟨true, "float16", "nf4"⟩) ∧
      (env.cuda_is_available = false → cfg = .dtype "bfloat16") := by
  intro env o cfg h
  rcases loadModel_mem_inv env o cfg h with ⟨args, hp, hcfg⟩
  constructor
  · intro hcuda
    rw [hcfg, hcuda, bnb_config_for_cuda]
    rfl
  · intro hcpu
    rw [hcfg, hcpu, bnb_config_for_cpu]
    rfl

set_option maxRecDepth 100000 in
theorem quantization_matches_device_witness :
    (Event.loadModel (LoadCfg.quant ⟨true, "float16", "nf4"⟩) ∈
      (run envOk argvBooru).trace) ∧
    (Event.loadModel (LoadCfg.dtype "bfloat16") ∈ (run envCpu argvBooru).trace) ∧
    LoadCfg.quant ⟨true, "float16", "nf4"⟩ = LoadCfg.quant ⟨true, "float16", "nf4"⟩ ∧
    LoadCfg.dtype "bfloat16" = LoadCfg.dtype "bfloat16" :=
  ⟨by decide, by decide,
   (quantization_matches_device envOk argvBooru _ (by decide)).1 rfl,
   (quantization_matches_device envCpu argvBooru _ (by decide)).2 rfl⟩

/-- C5: every run that exits with status 0 performed the library calls in
the fixed order import dependencies, load image, load processor, load model,
build prompt, generate, decode — the trace is exactly this sequence, so no
later step ever precedes an earlier one. -/
theorem success_call_sequence :
    ∀ (env : Env) (o : ArgvOpts), (run env o).exitCode = 0 →
      ∃ (img : PILImage) (cfg : LoadCfg) (convo : List Message)
        (n : Nat) (ids sliced : List Nat) (raw : String),
        sliced = ids.drop n ∧
        (run env o).trace =
          [.importDeps, .loadImage img, .loadProcessor, .loadModel cfg,
           .buildPrompt convo, .generate img n ids, .decode sliced raw] := by
  intro env o h
  rcases exit_zero_inv env o h with
    ⟨args, raw, cs, inputs, ids, caption, hp, hi, ho, hc, hct, hpi, hd, hr⟩
  exact ⟨convertRGB raw, _, _, inputs.input_ids.length, ids, _, caption, rfl, by rw [hr]⟩

theorem success_call_sequence_witness :
    ∃ (img : PILImage) (cfg : LoadCfg) (convo : List Message)
      (n : Nat) (ids sliced : List Nat) (raw : String),
      sliced = ids.drop n ∧
      (run envOk argvBooru).trace =
        [.importDeps, .loadImage img, .loadProcessor, .loadModel cfg,
         .buildPrompt convo, .generate img n ids, .decode sliced raw] :=
  success_call_sequence envOk argvBooru (by decide)

/-- C6: on success stdout carries exactly one line, the decoded generation
output with surrounding whitespace stripped; on any failure stdout is empty,
so error and warning messages (which the program writes to stderr) never
appear on stdout. -/
theorem stdout_caption_only :
    ∀ (env : Env) (o : ArgvOpts),
      ((run env o).exitCode = 0 →
        ∃ ids caption, Event.decode ids caption ∈ (run env o).trace ∧
          (run env o).stdout = [pyStrip caption]) ∧
      ((run env o).exitCode ≠ 0 → (run env o).stdout = []) := by
  intro env o
  constructor
  · intro h
    rcases exit_zero_inv env o h with
      ⟨args, raw, cs, inputs, ids, caption, hp, hi, ho, hc, hct, hpi, hd, hr⟩
    exact ⟨ids.drop inputs.input_ids.length, caption, by rw [hr]; simp, by rw [hr]⟩
  · intro h
    exact (exit_nonzero_inv env o h).1

theorem stdout_caption_only_witness :
    (∃ ids caption, Event.decode ids caption ∈ (run envOk argvBooru).trace ∧
      (run envOk argvBooru).stdout = [pyStrip caption]) ∧
    (run envBadImage argvBooru).stdout = [] :=
  ⟨(stdout_caption_only envOk argvBooru).1 (by decide),
   (stdout_caption_only envBadImage argvBooru).2 (by decide)⟩

/-- C7: every chat prompt built is the two-message conversation: the fixed
system message "You are a helpful image captioner." followed by a user
message whose content is exactly the selected mode's prompt string. -/
theorem prompt_two_messages :
    ∀ (env : Env) (o : ArgvOpts) (convo : List Message),
      Event.buildPrompt convo ∈ (run env o).trace →
      ∃ args p, parse_args o = .ok args ∧
        dictFind MODE_PROMPTS args.mode = some p ∧
        convo = [⟨"system", "You are a helpful image captioner."⟩, ⟨"user", p⟩] := by
  intro env o convo h
  rcases buildPrompt_mem_inv env o convo h with ⟨args, hp, hcv⟩
  rcases mode_lookup args.mode (parse_args_mode_cases o args hp) with ⟨p, hfind, hget⟩
  refine ⟨args, p, hp, hfind, ?_⟩
  rw [hcv]
  unfold convo_for
  rw [hget]

set_option maxRecDepth 100000 in
theorem prompt_two_messages_witness :
    ∃ args p, parse_args argvBooru = .ok args ∧
      dictFind MODE_PROMPTS args.mode = some p ∧
      convo_for "booru" =
        [⟨"system", "You are a helpful image captioner."⟩, ⟨"user", p⟩] :=
  prompt_two_messages envCpu argvBooru (convo_for "booru") (by decide)

/-- C8: whenever the parser accepted the arguments, args.mode is a key of
MODE_PROMPTS ("descriptive" is substituted when --mode is omitted), the
lookup finds it, and the `.get` call returns the found entry — the
DEFAULT_PROMPT fallback branch is dead code. -/
theorem default_prompt_fallback_dead :
    ∀ (o : ArgvOpts) (args : Args), parse_args o = .ok args →
      (o.mode = none → args.mode = "descriptive") ∧
      ∃ p, dictFind MODE_PROMPTS args.mode = some p ∧
        dictGet MODE_PROMPTS args.mode DEFAULT_PROMPT = p := by
  intro o args hp
  refine ⟨?_, mode_lookup args.mode (parse_args_mode_cases o args hp)⟩
  intro hmode
  rcases o with ⟨image, mode, lv⟩
  simp only at hmode
  subst hmode
  cases image with
  | none => simp only [parse_args] at hp; cases hp
  | some img =>
    simp only [parse_args] at hp
    injection hp with hp
    rw [← hp]

theorem default_prompt_fallback_dead_witness :
    ((⟨some "img.png", none, false⟩ : ArgvOpts).mode = none →
      (⟨"img.png", "descriptive", false⟩ : Args).mode = "descriptive") ∧
    ∃ p, dictFind MODE_PROMPTS (Args.mk "img.png" "descriptive" false).mode = some p ∧
      dictGet MODE_PROMPTS (Args.mk "img.png" "descriptive" false).mode DEFAULT_PROMPT = p :=
  default_prompt_fallback_dead ⟨some "img.png", none, false⟩
    ⟨"img.png", "descriptive", false⟩ rfl

/-- C9: the ids handed to the tokenizer for decoding are exactly the
generated ids with their first input_ids-length prefix dropped, so echoed
prompt tokens never contribute to the printed caption. -/
theorem caption_excludes_prompt_echo :
    ∀ (env : Env) (o : ArgvOpts) (img : PILImage) (n : Nat) (gids : List Nat),
      Event.generate img n gids ∈ (run env o).trace →
      (∃ cs inputs, env.processInputs cs img = .ok inputs ∧
        n = inputs.input_ids.length) ∧
      (∀ ids2 raw, Event.decode ids2 raw ∈ (run env o).trace →
        ids2 = gids.drop n) := by
  intro env o img n gids h
  rcases run_cases env o with
    ⟨c, hp, hr⟩ |
    ⟨args, hp, ⟨e, he, hr⟩ |
      ⟨hi, ⟨e, he, hr⟩ |
        ⟨raw, ho, ⟨e, he, hr⟩ |
          ⟨hc, ⟨e, he, hr⟩ |
            ⟨p, hpr, ⟨e, he, hr⟩ |
              ⟨mdl, hlm, ⟨e, he, hr⟩ |
                ⟨cs, hct, ⟨e, he, hr⟩ |
                  ⟨inputs, hpi, ⟨e, he, hr⟩ |
                    ⟨genIds, hg, ⟨e, he, hr⟩ |
                      ⟨caption, hd, hr⟩⟩⟩⟩⟩⟩⟩⟩⟩⟩
  all_goals rw [hr] at h
  all_goals simp at h
  all_goals obtain ⟨h1, h2, h3⟩ := h
  all_goals subst h1
  all_goals subst h2
  all_goals subst h3
  all_goals refine ⟨⟨cs, inputs, hpi, rfl⟩, ?_⟩
  all_goals intro ids2 raw2 hm
  all_goals rw [hr] at hm
  all_goals simp at hm
  all_goals exact hm.1

set_option maxRecDepth 100000 in
theorem caption_excludes_prompt_echo_witness :
    (∃ cs inputs, envOk.processInputs cs (PILImage.mk "RGB" 7) = .ok inputs ∧
      3 = inputs.input_ids.length) ∧
    (∀ ids2 raw, Event.decode ids2 raw ∈ (run envOk argvBooru).trace →
      ids2 = [1, 2, 3, 40, 41].drop 3) :=
  caption_excludes_prompt_echo envOk argvBooru (PILImage.mk "RGB" 7) 3
    [1, 2, 3, 40, 41] (by decide)

/-- C10: every image recorded in the trace (and in particular the one handed
to the processor call of the generate step) is the RGB conversion of the
opened file, whatever its original color mode; and when opening or
converting raises, the run exits with status 1 without loading the processor
or the model. -/
theorem rgb_before_processor_and_open_failure :
    ∀ (env : Env) (o : ArgvOpts),
      (∀ img, Event.loadImage img ∈ (run env o).trace →
        (∃ args raw, parse_args o = .ok args ∧
          env.openImage args.image = .ok raw ∧ img = convertRGB raw) ∧
        img.mode = "RGB") ∧
      (∀ img n gids, Event.generate img n gids ∈ (run env o).trace →
        Event.loadImage img ∈ (run env o).trace) ∧
      (∀ args, parse_args o = .ok args → env.importError = none →
        ((∃ e, env.openImage args.image = .error e) ∨ env.convertError ≠ none) →
        (run env o).exitCode = 1 ∧
        Event.loadProcessor ∉ (run env o).trace ∧
        ∀ cfg, Event.loadModel cfg ∉ (run env o).trace) := by
  intro env o
  refine ⟨?_, ?_, ?_⟩
  · intro img h
    rcases loadImage_mem_inv env o img h with ⟨args, raw, hp, ho, hc, him⟩
    exact ⟨⟨args, raw, hp, ho, him⟩, by rw [him]; rfl⟩
  · intro img n gids h
    rcases run_cases env o with
      ⟨c, hp, hr⟩ |
      ⟨args, hp, ⟨e, he, hr⟩ |
        ⟨hi, ⟨e, he, hr⟩ |
          ⟨raw, ho, ⟨e, he, hr⟩ |
            ⟨hc, ⟨e, he, hr⟩ |
              ⟨p, hpr, ⟨e, he, hr⟩ |
                ⟨mdl, hlm, ⟨e, he, hr⟩ |
                  ⟨cs, hct, ⟨e, he, hr⟩ |
                    ⟨inputs, hpi, ⟨e, he, hr⟩ |
                      ⟨genIds, hg, ⟨e, he, hr⟩ |
                        ⟨caption, hd, hr⟩⟩⟩⟩⟩⟩⟩⟩⟩⟩
    all_goals rw [hr] at h ⊢
    all_goals simp at h
    all_goals obtain ⟨h1, h2, h3⟩ := h
    all_goals subst h1
    all_goals simp
  · intro args hp hi hdisj
    rcases run_cases env o with
      ⟨c, hp2, hr⟩ |
      ⟨args2, hp2, ⟨e, he, hr⟩ |
        ⟨hi2, ⟨e, he, hr⟩ |
          ⟨raw, ho, ⟨e, he, hr⟩ |
            ⟨hc, ⟨e, he, hr⟩ |
              ⟨p, hpr, ⟨e, he, hr⟩ |
                ⟨mdl, hlm, ⟨e, he, hr⟩ |
                  ⟨cs, hct, ⟨e, he, hr⟩ |
                    ⟨inputs, hpi, ⟨e, he, hr⟩ |
                      ⟨genIds, hg, ⟨e, he, hr⟩ |
                        ⟨caption, hd, hr⟩⟩⟩⟩⟩⟩⟩⟩⟩⟩
    all_goals rw [hr]
    all_goals simp_all

set_option maxRecDepth 100000 in
theorem rgb_before_processor_and_open_failure_witness :
    ((∃ args raw, parse_args argvBooru = .ok args ∧
        envOk.openImage args.image = .ok raw ∧ PILImage.mk "RGB" 7 = convertRGB raw) ∧
      (PILImage.mk "RGB" 7).mode = "RGB") ∧
    ((run envBadImage argvBooru).exitCode = 1 ∧
      Event.loadProcessor ∉ (run envBadImage argvBooru).trace ∧
      ∀ cfg, Event.loadModel cfg ∉ (run envBadImage argvBooru).trace) :=
  ⟨(rgb_before_processor_and_open_failure envOk argvBooru).1
      (PILImage.mk "RGB" 7) (by decide),
   (rgb_before_processor_and_open_failure envBadImage argvBooru).2.2
      ⟨"img.png", "booru", false⟩ rfl rfl (Or.inl ⟨"No such file", rfl⟩)⟩

end JoyCaption
